import Mathlib

/-!
Shallow embedding of the client-side data-access layer of the
GlobalMusicTrendPipeline dashboard
(`frontend/src/services/apiService.js`, class `MusicAPIService`), together
with the Dashboard component's WebSocket message handler.

Modelling conventions:
- JavaScript objects become Lean structures; fields that may be `undefined`
  or `null` become `Option` fields.
- `Date.now()` is passed in explicitly as `now : Nat` (milliseconds).
- `Math.random()` draws are supplied by an oracle `rand : Nat → Nat`;
  `Math.floor(Math.random() * B)` is modelled as `rand k % B` for a fresh
  draw index `k` (the indexing scheme is arbitrary; every theorem quantifies
  over `rand`).
- The `fetch`/`await` network interaction is supplied as an explicit input
  (the response, or a network error); each operation additionally returns a
  Bool recording whether it performed a network request.
- JS truthiness is modelled explicitly where it matters: the empty string is
  falsy, `0` and `NaN` are falsy, and an array (even `[]`) is truthy.
-/

namespace MusicAPI

/-- `this.cacheTimeout = 30000` (milliseconds), set in the constructor. -/
def cacheTimeout : Int := 30000

/-- `this.maxReconnectAttempts = 5`, set in the constructor. -/
def maxReconnectAttempts : Nat := 5

/-- One entry of `this.cache`: `{ data, timestamp }`. -/
structure CacheEntry (α : Type) where
  data : α
  timestamp : Nat
  deriving DecidableEq, Repr

/-- `this.cache` is a JS `Map` keyed by strings; we model it as an
association list (later insertions shadow earlier ones). -/
def CacheMap (α : Type) : Type := List (String × CacheEntry α)

/-- `Map.prototype.get`. -/
def mapGet {α : Type} (m : CacheMap α) (k : String) : Option (CacheEntry α) :=
  match List.find? (fun p => p.1 = k) m with
  | some p => some p.2
  | none => none

/-- `Map.prototype.set` (overwrites any previous binding for the key). -/
def mapSet {α : Type} (m : CacheMap α) (k : String) (v : CacheEntry α) : CacheMap α :=
  (k, v) :: List.filter (fun p => p.1 ≠ k) m

/-- `isCacheValid(key)`: a lookup is valid when the key is present and
`Date.now() - cached.timestamp < this.cacheTimeout`. -/
def isCacheValid {α : Type} (m : CacheMap α) (now : Nat) (key : String) : Bool :=
  match mapGet m key with
  | none => false
  | some cached => (now : Int) - (cached.timestamp : Int) < cacheTimeout

/-- The spec's words for cache validity: the entry for the key exists and
`now - stored_timestamp < 30s`.  Used to compare `isCacheValid` against the
specification text. -/
def specCacheValid {α : Type} (entry : Option (CacheEntry α)) (now : Nat) : Prop :=
  ∃ e, entry = some e ∧ (now : Int) - (e.timestamp : Int) < 30000

instance {α : Type} (entry : Option (CacheEntry α)) (now : Nat) :
    Decidable (specCacheValid entry now) := by
  unfold specCacheValid
  cases entry with
  | none => exact isFalse (by simp)
  | some e => exact decidable_of_iff ((now : Int) - (e.timestamp : Int) < 30000) (by simp)

/-- A raw track object as delivered by the backend.  Every field may be
absent (`undefined`), hence `Option`.  Numeric fields are modelled as the
result of `parseInt`: `none` stands for `NaN` (absent or unparsable). -/
structure RawTrack where
  id : Option String := none
  track_id : Option String := none
  song : Option String := none
  track_name : Option String := none
  name : Option String := none
  primary_artists : Option String := none
  artist : Option String := none
  singers : Option String := none
  album : Option String := none
  popularity : Option Int := none
  play_count : Option Int := none
  duration : Option Int := none
  image : Option String := none
  media_preview_url : Option String := none
  preview_url : Option String := none
  media_url : Option String := none
  language : Option String := none
  explicit_content : Option String := none
  explicit : Option Bool := none
  year : Option String := none
  release_date : Option String := none
  label : Option String := none
  deriving DecidableEq, Repr

/-- A normalized track as produced by `enhanceTrackData`, or a synthetic
fallback track.  Fields the fallback generator does not set are `Option`
(`none` = absent on the JS object). -/
structure Track where
  track_id : String
  track_name : String
  artist : String
  album : String
  popularity : Int
  play_count : Int
  duration_ms : Option Int := none
  image_url : String
  preview_url : Option String := none
  language : String
  genre : String
  explicit : Option Bool := none
  release_date : Option String := none
  label : Option String := none
  is_trending : Bool
  growth_rate : Option String := none
  listeners : Option Nat := none
  fetched_at : Option String := none
  source : String
  deriving DecidableEq, Repr

/-- JS `a || b` for a possibly-absent string `a`: the empty string is
falsy, any other string truthy. -/
def strOr (a : Option String) (b : String) : String :=
  match a with
  | some s => if s = "" then b else s
  | none => b

/-- JS `a || b` where the default is itself possibly absent (`null`). -/
def strOrOpt (a : Option String) (b : Option String) : Option String :=
  match a with
  | some s => if s = "" then b else some s
  | none => b

/-- JS `v || d` for a `parseInt` result `v`: `NaN` (= `none`) and `0` are
falsy. -/
def jsNumOr (v : Option Int) (d : Int) : Int :=
  match v with
  | some n => if n = 0 then d else n
  | none => d

/-- JS `v > bound` for a possibly-absent number: `undefined > bound` is
false. -/
def jsNumGt (v : Option Int) (bound : Int) : Bool :=
  match v with
  | some n => bound < n
  | none => false

/-- `String.prototype.trim`: strips whitespace from both ends. -/
def jsTrim (s : String) : String :=
  ⟨((s.data.dropWhile Char.isWhitespace).reverse.dropWhile
      Char.isWhitespace).reverse⟩

/-- `String.prototype.includes` for a non-empty pattern. -/
def jsIncludes (s pat : String) : Bool :=
  (s.splitOn pat).length ≠ 1

/-- `String.prototype.replace` with a string pattern replaces only the
first occurrence. -/
def replaceFirst (s pat rep : String) : String :=
  match s.splitOn pat with
  | [] => s
  | [x] => x
  | x :: rest => x ++ rep ++ String.intercalate pat rest

/-- `determineGenre(track)`: genre heuristics over the raw track. -/
def determineGenre (track : RawTrack) : String :=
  let language := (strOr track.language "").toLower
  let title := (strOr track.song (strOr track.track_name "")).toLower
  let album := (strOr track.album "").toLower
  if jsIncludes title "remix" || jsIncludes album "remix" then "remix"
  else if jsIncludes title "trending" || jsNumGt track.popularity 90 then "trending"
  else if language = "hindi" then "bollywood"
  else if language ∈ ["tamil", "telugu", "malayalam", "kannada"] then "south_indian"
  else if language = "punjabi" then "punjabi"
  else "regional"

/-- Placeholder artwork URL used when the raw track has no image. -/
def placeholderImage : String :=
  "https://via.placeholder.com/500x500/1a1a1a/666666?text=Music"

/-- `enhanceTrackData(track)`: normalizes heterogeneous backend field names
into one consistent shape.  `now` is `Date.now()`; `rand k` supplies the
`k`-th `Math.random()` draw of this call. -/
def enhanceTrackData (now : Nat) (rand : Nat → Nat) (track : RawTrack) : Track :=
  { track_id := strOr track.id (strOr track.track_id
      ("track_" ++ toString now ++ "_" ++ toString (rand 0))),
    track_name := strOr track.song (strOr track.track_name
      (strOr track.name "Unknown Track")),
    artist := strOr track.primary_artists (strOr track.artist
      (strOr track.singers "Unknown Artist")),
    album := strOr track.album "Unknown Album",
    popularity := jsNumOr track.popularity ((rand 1 % 100 : Nat) : Int),
    play_count := jsNumOr track.play_count ((rand 2 % 1000000 : Nat) : Int),
    duration_ms := some (jsNumOr (track.duration.map (· * 1000)) 180000),
    image_url :=
      match track.image with
      | some img => if img = "" then placeholderImage
                    else replaceFirst img "150x150" "500x500"
      | none => placeholderImage,
    preview_url := strOrOpt track.media_preview_url
      (strOrOpt track.preview_url (strOrOpt track.media_url none)),
    language := strOr track.language "hindi",
    genre := determineGenre track,
    explicit := some ((track.explicit_content == some "1")
      || track.explicit.getD false),
    release_date := some (strOr track.year (strOr track.release_date "2024")),
    label := some (strOr track.label "Independent"),
    is_trending := jsNumGt track.popularity 80,
    growth_rate := some ("+" ++ toString (rand 3 % 20) ++ "%"),
    listeners := some (rand 4 % 100000 + 10000),
    fetched_at := some ("ISO(" ++ toString now ++ ")"),
    source := "jiosaavn_api" }

/-- The `metadata` object of a trending payload. -/
structure Metadata where
  total : Nat
  source : String
  timestamp : Nat
  deriving DecidableEq, Repr

/-- The `tracks` field of a parsed trending body, with JS truthiness made
explicit: absent/null is falsy; an array is truthy even when empty; any
other truthy non-array value fails the `Array.isArray` check. -/
inductive TracksField where
  | missing
  | nonArrayTruthy
  | arr (ts : List RawTrack)
  deriving DecidableEq, Repr

/-- A parsed JSON body of `GET /trending`. -/
structure TrendingBody where
  success : Bool
  tracks : TracksField
  metadata : Option Metadata := none
  deriving DecidableEq, Repr

/-- The value `getTrendingTracks` returns (and caches): either
`{...data, tracks, timestamp, source: 'api'}` on success, or the fallback
payload `{success: true, tracks, metadata}`. -/
structure TrendingResult where
  success : Bool
  tracks : List Track
  metadata : Option Metadata := none
  timestamp : Option Nat := none
  source : Option String := none
  deriving DecidableEq, Repr, Inhabited

/-- Outcome of the `fetch` of `GET /trending?limit=N`:
either the promise rejects (network failure / timeout), or a response
arrives with an HTTP status and a JSON body (`none` when
`response.json()` itself throws). -/
inductive HttpTrending where
  | netError
  | resp (status : Nat) (json : Option TrendingBody)
  deriving DecidableEq, Repr

/-- `Response.ok`: status in the inclusive range 200–299. -/
def respOk (status : Nat) : Bool :=
  200 ≤ status && status ≤ 299

/-- `getFallbackTrendingData(limit)`: synthesizes `limit` placeholder
tracks (`Array.from({length: limit}, (_, i) => ...)`), each with
`source: 'fallback'`. -/
def getFallbackTrendingData (now : Nat) (rand : Nat → Nat) (limit : Nat) :
    TrendingResult :=
  let fallbackTracks : List Track := (List.range limit).map (fun i =>
    { track_id := "fallback_" ++ toString i,
      track_name := "Trending Song " ++ toString (i + 1),
      artist := "Popular Artist " ++ toString (i + 1),
      album := "Hit Album " ++ toString (i + 1),
      popularity := ((rand (5 * i) % 100 : Nat) : Int),
      play_count := ((rand (5 * i + 1) % 1000000 : Nat) : Int),
      language := List.getD ["hindi", "punjabi", "tamil", "telugu"]
        (rand (5 * i + 2) % 4) "hindi",
      genre := List.getD ["bollywood", "punjabi", "south_indian", "trending"]
        (rand (5 * i + 3) % 4) "bollywood",
      image_url := placeholderImage,
      preview_url := none,
      is_trending := true,
      source := "fallback" })
  { success := true,
    tracks := fallbackTracks,
    metadata := some { total := limit, source := "fallback", timestamp := now } }

/-- The response-structure validation of `getTrendingTracks`:
`!data.success || !data.tracks || !Array.isArray(data.tracks)`.
Note that in JS an empty array is truthy, so `tracks: []` passes. -/
def trendingInvalid (data : TrendingBody) : Bool :=
  !data.success ||
    (match data.tracks with
     | TracksField.missing => true
     | TracksField.nonArrayTruthy => true
     | TracksField.arr _ => false)

/-- `getTrendingTracks(limit)`.  Returns the payload, the updated cache,
and whether a network request was performed.  The cache-hit branch models
`this.cache.get(cacheKey).data`; its `default` arm is dead code because
`isCacheValid` guarantees the key is present. -/
def getTrendingTracks (now : Nat) (rand : Nat → Nat)
    (cache : CacheMap TrendingResult) (net : HttpTrending) (limit : Nat) :
    TrendingResult × CacheMap TrendingResult × Bool :=
  let cacheKey := "trending_" ++ toString limit
  if isCacheValid cache now cacheKey then
    match mapGet cache cacheKey with
    | some cached => (cached.data, cache, false)
    | none => (default, cache, false)
  else
    match net with
    | HttpTrending.netError => (getFallbackTrendingData now rand limit, cache, true)
    | HttpTrending.resp status json =>
      if !respOk status then
        (getFallbackTrendingData now rand limit, cache, true)
      else
        match json with
        | none => (getFallbackTrendingData now rand limit, cache, true)
        | some data =>
          if trendingInvalid data then
            (getFallbackTrendingData now rand limit, cache, true)
          else
            match data.tracks with
            | TracksField.arr ts =>
              let enhancedTracks := ts.mapIdx
                (fun i t => enhanceTrackData now (fun k => rand (16 * i + k)) t)
              let result : TrendingResult :=
                { success := data.success,
                  tracks := enhancedTracks,
                  metadata := data.metadata,
                  timestamp := some now,
                  source := some "api" }
              (result, mapSet cache cacheKey { data := result, timestamp := now }, true)
            | _ => (getFallbackTrendingData now rand limit, cache, true)

/-- The `market_overview` object of an analytics payload. -/
structure MarketOverview where
  total_tracks_analyzed : Nat
  unique_artists : Nat
  total_plays : Nat
  avg_popularity_score : Rat
  deriving DecidableEq, Repr

/-- The `content_distribution` object of an analytics payload. -/
structure ContentDistribution where
  by_language : List (String × Nat)
  by_genre : List (String × Nat)
  deriving DecidableEq, Repr

/-- A parsed JSON body of `GET /analytics`.  The code applies no shape
validation to it, so every field is optional. -/
structure AnalyticsBody where
  market_overview : Option MarketOverview := none
  content_distribution : Option ContentDistribution := none
  source : Option String := none
  deriving DecidableEq, Repr, Inhabited

/-- Outcome of the `fetch` of `GET /analytics`. -/
inductive HttpAnalytics where
  | netError
  | resp (status : Nat) (json : Option AnalyticsBody)
  deriving DecidableEq, Repr

/-- `getFallbackAnalytics()`: the fixed synthetic analytics payload. -/
def getFallbackAnalytics : AnalyticsBody :=
  { market_overview := some
      { total_tracks_analyzed := 50,
        unique_artists := 25,
        total_plays := 15000000,
        avg_popularity_score := 75.5 },
    content_distribution := some
      { by_language :=
          [("hindi", 25), ("punjabi", 8), ("tamil", 7), ("telugu", 6),
           ("malayalam", 4)],
        by_genre :=
          [("bollywood", 30), ("punjabi", 8), ("south_indian", 12),
           ("trending", 10), ("regional", 5)] },
    source := some "fallback" }

/-- `getAnalytics()`.  Returns the payload, the updated cache, and whether
a network request was performed.  Any parsed 2xx body is cached and
returned unvalidated. -/
def getAnalytics (now : Nat) (cache : CacheMap AnalyticsBody)
    (net : HttpAnalytics) : AnalyticsBody × CacheMap AnalyticsBody × Bool :=
  let cacheKey := "analytics"
  if isCacheValid cache now cacheKey then
    match mapGet cache cacheKey with
    | some cached => (cached.data, cache, false)
    | none => (default, cache, false)
  else
    match net with
    | HttpAnalytics.netError => (getFallbackAnalytics, cache, true)
    | HttpAnalytics.resp status json =>
      if !respOk status then
        (getFallbackAnalytics, cache, true)
      else
        match json with
        | none => (getFallbackAnalytics, cache, true)
        | some data =>
          (data, mapSet cache cacheKey { data := data, timestamp := now }, true)

/-- The `metadata` object of a search payload (`data.metadata?.total`). -/
structure SearchMetadata where
  total : Option Nat := none
  deriving DecidableEq, Repr

/-- A parsed JSON body of `GET /search`. `tracks : none` models an absent
or falsy `tracks` field; note `searchTracks` performs no `response.ok`
check, so the status does not appear here. -/
structure SearchBody where
  success : Bool
  tracks : Option (List RawTrack) := none
  metadata : Option SearchMetadata := none
  deriving DecidableEq, Repr

/-- Outcome of the search fetch: `netError msg` covers both a rejected
`fetch` and a throwing `response.json()` (the same `catch` handles both,
storing the error message). -/
inductive HttpSearch where
  | netError (msg : String)
  | resp (body : SearchBody)
  deriving DecidableEq, Repr

/-- The value `searchTracks` resolves with; absent fields are `none`. -/
structure SearchResult where
  tracks : List Track
  total : Nat
  query : Option String := none
  error : Option String := none
  deriving DecidableEq, Repr

/-- `searchTracks(query, limit)`.  Returns the result and whether a network
request was performed.  `limit` only feeds the request URL.  The guard is
`!query || query.trim().length < 2`; `data.metadata?.total ||
data.tracks.length` treats a present `total` of `0` as falsy. -/
def searchTracks (now : Nat) (rand : Nat → Nat) (query : String)
    (limit : Nat) (net : HttpSearch) : SearchResult × Bool :=
  if query = "" || (jsTrim query).length < 2 then
    ({ tracks := [], total := 0 }, false)
  else
    match net with
    | HttpSearch.netError msg =>
      ({ tracks := [], total := 0, error := some msg }, true)
    | HttpSearch.resp data =>
      match data.tracks, data.success with
      | some ts, true =>
        ({ tracks := ts.mapIdx
             (fun i t => enhanceTrackData now (fun k => rand (16 * i + k)) t),
           total :=
             (match data.metadata.bind (fun m => m.total) with
              | some n => if n = 0 then ts.length else n
              | none => ts.length),
           query := some query }, true)
      | _, _ => ({ tracks := [], total := 0, query := some query }, true)

/-- Browser `WebSocket.readyState` values. -/
inductive ReadyState where
  | connecting
  | openSt
  | closing
  | closed
  deriving DecidableEq, Repr

/-- The WebSocket-related fields of `MusicAPIService`: `this.ws` (with the
browser-side ready state of the held socket), `this.wsConnected` and
`this.reconnectAttempts`. -/
structure WsState where
  ws : Option ReadyState
  wsConnected : Bool
  reconnectAttempts : Nat
  deriving DecidableEq, Repr

/-- The constructor state: `ws = null`, `wsConnected = false`,
`reconnectAttempts = 0`. -/
def wsInit : WsState :=
  { ws := none, wsConnected := false, reconnectAttempts := 0 }

/-- Observable side effects of one WebSocket event handler:
the argument passed to `onConnectionChange` (if invoked), and the
`setTimeout` delay (in ms) of a scheduled reconnect (if any). -/
structure WsEffect where
  statusCb : Option Bool := none
  scheduledDelay : Option Nat := none
  deriving DecidableEq, Repr

/-- `connectWebSocket(...)`: no-op when `this.ws && this.ws.readyState ===
WebSocket.OPEN`; otherwise replaces `this.ws` with a fresh connecting
socket. -/
def connectWebSocket (s : WsState) : WsState :=
  match s.ws with
  | some ReadyState.openSt => s
  | _ => { s with ws := some ReadyState.connecting }

/-- The `onopen` handler: sets `wsConnected = true`, resets
`reconnectAttempts` to 0, and invokes the status callback with `true`. -/
def wsOnOpen (s : WsState) : WsState × WsEffect :=
  ({ s with
      ws := some ReadyState.openSt
      wsConnected := true
      reconnectAttempts := 0 },
   { statusCb := some true })

/-- The `onclose` handler: sets `wsConnected = false`, invokes the status
callback with `false`, and — when `reconnectAttempts <
maxReconnectAttempts` — schedules a reconnect via `setTimeout(...,
3000 * this.reconnectAttempts)`.  The counter is incremented inside the
timer callback, not here, so the delay uses the pre-increment value. -/
def wsOnClose (s : WsState) : WsState × WsEffect :=
  ({ s with ws := some ReadyState.closed, wsConnected := false },
   { statusCb := some false,
     scheduledDelay :=
       if s.reconnectAttempts < maxReconnectAttempts then
         some (3000 * s.reconnectAttempts)
       else none })

/-- The body of the reconnect `setTimeout` callback:
`this.reconnectAttempts++` followed by `this.connectWebSocket(...)`. -/
def wsTimerFire (s : WsState) : WsState :=
  connectWebSocket { s with reconnectAttempts := s.reconnectAttempts + 1 }

/-- `disconnectWebSocket()`: when a socket handle exists it is closed and
released and `wsConnected` is cleared; otherwise nothing happens.
`reconnectAttempts` is not touched on either path. -/
def disconnectWebSocket (s : WsState) : WsState :=
  match s.ws with
  | some _ => { s with ws := none, wsConnected := false }
  | none => s

/-- Events driving the WebSocket state machine. -/
inductive WsEvent where
  | evConnect
  | evOpen
  | evClose
  | evTimer
  | evDisconnect
  deriving DecidableEq, Repr

/-- One step of the WebSocket state machine with its observable effect. -/
def wsStep (s : WsState) : WsEvent → WsState × WsEffect
  | WsEvent.evConnect => (connectWebSocket s, {})
  | WsEvent.evOpen => wsOnOpen s
  | WsEvent.evClose => wsOnClose s
  | WsEvent.evTimer => (wsTimerFire s, {})
  | WsEvent.evDisconnect => (disconnectWebSocket s, {})

/-- Run a sequence of events, keeping only the final state. -/
def wsRun (s : WsState) (es : List WsEvent) : WsState :=
  es.foldl (fun s e => (wsStep s e).1) s

/-- Run a sequence of events, collecting the effect of every step. -/
def wsRunEffects (s : WsState) : List WsEvent → List WsEffect
  | [] => []
  | e :: es => (wsStep s e).2 :: wsRunEffects (wsStep s e).1 es

/-- The `metadata` object of the Dashboard's `trendingData` state after
spreads; every field may be absent. -/
structure DashMetadata where
  total : Option Nat := none
  source : Option String := none
  timestamp : Option Nat := none
  last_update : Option String := none
  deriving DecidableEq, Repr

/-- The Dashboard's `trendingData` React state (α is the type of the raw
track values carried by the live feed).  Fields other than `tracks` and
`metadata` are preserved by the `{...prev}` spread. -/
structure DashTrendingData (α : Type) where
  success : Option Bool := none
  tracks : List α := []
  metadata : Option DashMetadata := none
  deriving DecidableEq, Repr

/-- A parsed live-feed message `{type, data}`; `data : none` models an
absent or falsy `data` field, `some ts` an array (truthy even when
empty). -/
structure WsMessage (α : Type) where
  type : String
  data : Option (List α) := none
  deriving DecidableEq, Repr

/-- The Dashboard's `onMessage` callback passed to `connectWebSocket`:
on `data.type === 'trending_update' && data.data` it replaces
`trendingData.tracks` with `data.data` and stamps the metadata
(`last_update`, `source: 'websocket'`); every other message leaves the
state unchanged.  `nowIso` is `new Date().toISOString()`. -/
def dashboardOnMessage {α : Type} (nowIso : String)
    (st : Option (DashTrendingData α)) (msg : WsMessage α) :
    Option (DashTrendingData α) :=
  if msg.type = "trending_update" then
    match msg.data with
    | some ts =>
      let prevMeta : DashMetadata :=
        match st with
        | some prev => prev.metadata.getD {}
        | none => {}
      let newMeta : DashMetadata :=
        { prevMeta with
            last_update := some nowIso
            source := some "websocket" }
      match st with
      | some prev => some { prev with tracks := ts, metadata := some newMeta }
      | none => some { tracks := ts, metadata := some newMeta }
    | none => st
  else st

/-- The `onmessage` wrapper installed by `connectWebSocket`: it parses the
event payload and dispatches to the caller's callback; a JSON parse error
(`parsed = none`) is logged and otherwise ignored. -/
def wsDeliver {α : Type} (nowIso : String) (parsed : Option (WsMessage α))
    (st : Option (DashTrendingData α)) : Option (DashTrendingData α) :=
  match parsed with
  | some msg => dashboardOnMessage nowIso st msg
  | none => st

/-! ### Claim C1: 30-second TTL cache -/

/-- C1: For every request key, a fetch called again while the stored entry
is less than 30 seconds old returns the identical cached payload object and
performs no network request; cache validity is exactly the predicate
`now - stored_timestamp < 30s`; and once 30 seconds or more have elapsed a
subsequent call issues a new network request.  Stated for
`getTrendingTracks` (key `trending_{limit}`) and `getAnalytics`
(key `analytics`). -/
theorem cache_ttl_thirty_seconds
    (now t0 : Nat) (rand : Nat → Nat) (limit : Nat) (d : TrendingResult)
    (a : AnalyticsBody)
    (cache : CacheMap TrendingResult) (acache : CacheMap AnalyticsBody)
    (net : HttpTrending) (anet : HttpAnalytics) :
    (∀ (α : Type) (m : CacheMap α) (k : String),
        isCacheValid m now k = true ↔ specCacheValid (mapGet m k) now)
    ∧ (mapGet cache ("trending_" ++ toString limit) = some ⟨d, t0⟩ →
        (now : Int) - (t0 : Int) < 30000 →
        getTrendingTracks now rand cache net limit = (d, cache, false))
    ∧ (mapGet cache ("trending_" ++ toString limit) = some ⟨d, t0⟩ →
        30000 ≤ (now : Int) - (t0 : Int) →
        (getTrendingTracks now rand cache net limit).2.2 = true)
    ∧ (mapGet acache "analytics" = some ⟨a, t0⟩ →
        (now : Int) - (t0 : Int) < 30000 →
        getAnalytics now acache anet = (a, acache, false))
    ∧ (mapGet acache "analytics" = some ⟨a, t0⟩ →
        30000 ≤ (now : Int) - (t0 : Int) →
        (getAnalytics now acache anet).2.2 = true) := by
  refine ⟨?_, ?_, ?_, ?_, ?_⟩
  · intro α m k
    unfold isCacheValid specCacheValid
    cases h : mapGet m k with
    | none => simp
    | some e => simp [cacheTimeout]
  · intro h hfresh
    have hv : isCacheValid cache now ("trending_" ++ toString limit) = true := by
      simp only [isCacheValid, h, cacheTimeout]
      exact decide_eq_true hfresh
    simp [getTrendingTracks, hv, h]
  · intro h hstale
    have hv : isCacheValid cache now ("trending_" ++ toString limit) = false := by
      simp only [isCacheValid, h, cacheTimeout]
      simp; omega
    unfold getTrendingTracks
    simp only [hv, Bool.false_eq_true, if_false]
    cases net with
    | netError => rfl
    | resp status json =>
      by_cases hok : respOk status
      · cases json with
        | none => simp [hok]
        | some data =>
          by_cases hval : trendingInvalid data
          · simp [hok, hval]
          · simp only [hok, hval]
            cases htr : data.tracks <;> simp [htr]
      · simp [hok]
  · intro h hfresh
    have hv : isCacheValid acache now "analytics" = true := by
      simp only [isCacheValid, h, cacheTimeout]
      exact decide_eq_true hfresh
    simp [getAnalytics, hv, h]
  · intro h hstale
    have hv : isCacheValid acache now "analytics" = false := by
      simp only [isCacheValid, h, cacheTimeout]
      simp; omega
    unfold getAnalytics
    simp only [hv, Bool.false_eq_true, if_false]
    cases anet with
    | netError => rfl
    | resp status json =>
      by_cases hok : respOk status
      · cases json with
        | none => simp [hok]
        | some data => simp [hok]
      · simp [hok]

/-- A sample cached trending payload used to instantiate cache theorems. -/
def sampleTrending : TrendingResult :=
  { success := true, tracks := [], source := some "api" }

/-- Witness for C1: with a cache entry stored at t0 = 1000 ms, the call at
now = 5000 ms (age 4 s < 30 s) returns the identical cached payload with
no network request, and the call at now = 40000 ms (age 39 s ≥ 30 s)
performs a network request. -/
theorem cache_ttl_thirty_seconds_witness :
    getTrendingTracks 5000 (fun _ => 0)
        [("trending_25", ⟨sampleTrending, 1000⟩)] HttpTrending.netError 25
      = (sampleTrending, [("trending_25", ⟨sampleTrending, 1000⟩)], false)
    ∧ (getTrendingTracks 40000 (fun _ => 0)
        [("trending_25", ⟨sampleTrending, 1000⟩)] HttpTrending.netError 25).2.2
      = true := by
  constructor
  · exact (cache_ttl_thirty_seconds 5000 1000 (fun _ => 0) 25 sampleTrending
      default [("trending_25", ⟨sampleTrending, 1000⟩)] [] HttpTrending.netError
      HttpAnalytics.netError).2.1 (by rfl) (by decide)
  · exact (cache_ttl_thirty_seconds 40000 1000 (fun _ => 0) 25 sampleTrending
      default [("trending_25", ⟨sampleTrending, 1000⟩)] [] HttpTrending.netError
      HttpAnalytics.netError).2.2.1 (by rfl) (by decide)

/-! ### Claim C2: validation of the trending response -/

/-- Counterexample to C2: a 2xx response with `success: true` and
`tracks: []` is NOT treated as a failure — in JS an empty array is truthy,
so `!data.tracks` does not fire.  At this concrete input the result is the
empty track list (not the 5-track fallback) and the empty list is
cached. -/
theorem trending_empty_tracks_counterexample :
    (getTrendingTracks 0 (fun _ => 0) []
        (HttpTrending.resp 200
          (some { success := true, tracks := TracksField.arr [] })) 5).1.tracks
      = []
    ∧ (getTrendingTracks 0 (fun _ => 0) []
        (HttpTrending.resp 200
          (some { success := true, tracks := TracksField.arr [] })) 5).1
      ≠ getFallbackTrendingData 0 (fun _ => 0) 5
    ∧ (mapGet (getTrendingTracks 0 (fun _ => 0) []
        (HttpTrending.resp 200
          (some { success := true, tracks := TracksField.arr [] })) 5).2.1
        "trending_5").isSome = true := by
  refine ⟨rfl, ?_, rfl⟩
  decide

/-- C2 amended: `getTrendingTracks` rejects a 2xx body only when `success`
is falsy, `tracks` is missing, or `tracks` is not an array; a body with
`success: true` and `tracks: []` passes validation, so the empty list is
returned (with `source: 'api'`) and cached rather than replaced by
fallback data. -/
theorem trending_empty_tracks_accepted (now : Nat) (rand : Nat → Nat)
    (limit : Nat) (meta : Option Metadata) :
    (∀ data : TrendingBody,
        trendingInvalid data = true ↔
          data.success = false ∨ data.tracks = TracksField.missing ∨
            data.tracks = TracksField.nonArrayTruthy)
    ∧ (getTrendingTracks now rand []
        (HttpTrending.resp 200
          (some { success := true, tracks := TracksField.arr [],
                  metadata := meta })) limit).1.tracks = []
    ∧ (getTrendingTracks now rand []
        (HttpTrending.resp 200
          (some { success := true, tracks := TracksField.arr [],
                  metadata := meta })) limit).1.source = some "api"
    ∧ mapGet (getTrendingTracks now rand []
        (HttpTrending.resp 200
          (some { success := true, tracks := TracksField.arr [],
                  metadata := meta })) limit).2.1
        ("trending_" ++ toString limit)
      = some ⟨(getTrendingTracks now rand []
          (HttpTrending.resp 200
            (some { success := true, tracks := TracksField.arr [],
                    metadata := meta })) limit).1, now⟩ := by
  refine ⟨?_, ?_⟩
  · intro data
    unfold trendingInvalid
    cases hs : data.success <;> cases ht : data.tracks <;> simp [hs, ht]
  · have hv : isCacheValid ([] : CacheMap TrendingResult) now
        ("trending_" ++ toString limit) = false := by
      simp [isCacheValid, mapGet]
    simp [getTrendingTracks, hv, respOk, trendingInvalid, mapGet, mapSet]

/-! ### Claim C3: validation of the analytics response -/

/-- Counterexample to C3: `getAnalytics` performs no shape validation.  At
this concrete input the 2xx body lacks `content_distribution`, yet it is
returned as-is (not the fallback payload) and cached. -/
theorem analytics_missing_distribution_counterexample :
    (getAnalytics 0 [] (HttpAnalytics.resp 200 (some {}))).1
      = ({} : AnalyticsBody)
    ∧ ({} : AnalyticsBody).content_distribution = none
    ∧ (getAnalytics 0 [] (HttpAnalytics.resp 200 (some {}))).1
      ≠ getFallbackAnalytics
    ∧ (mapGet (getAnalytics 0 []
        (HttpAnalytics.resp 200 (some {}))).2.1 "analytics").isSome = true := by
  refine ⟨rfl, rfl, ?_, rfl⟩
  decide

/-- C3 amended: `getAnalytics` applies no validation to a parsed 2xx body:
every such body — including one lacking `content_distribution` — is cached
under the key `analytics` and returned as-is; the fallback payload is used
only on a network error, a JSON parse failure, or a non-2xx status. -/
theorem analytics_body_returned_unvalidated (now : Nat) (body : AnalyticsBody) :
    getAnalytics now [] (HttpAnalytics.resp 200 (some body))
      = (body, [("analytics", ⟨body, now⟩)], true)
    ∧ getAnalytics now [] HttpAnalytics.netError
      = (getFallbackAnalytics, [], true)
    ∧ getAnalytics now [] (HttpAnalytics.resp 500 (some body))
      = (getFallbackAnalytics, [], true)
    ∧ getAnalytics now [] (HttpAnalytics.resp 200 none)
      = (getFallbackAnalytics, [], true) := by
  have hv : isCacheValid ([] : CacheMap AnalyticsBody) now "analytics" = false := by
    simp [isCacheValid, mapGet]
  refine ⟨?_, ?_, ?_, ?_⟩ <;>
    simp [getAnalytics, hv, respOk, mapSet, List.filter]

/-! ### Claim C4: reconnect backoff delays -/

/-- Counterexample to C4: the delay is `3000 * reconnectAttempts` computed
BEFORE the counter is incremented (the increment happens inside the timer
callback), so when the first reconnect is scheduled (n = 1) the delay is
0 ms, not 3000 ms. -/
theorem reconnect_delay_counterexample :
    (wsOnClose (wsOnOpen (connectWebSocket wsInit)).1).2.statusCb = some false
    ∧ (wsOnClose (wsOnOpen (connectWebSocket wsInit)).1).2.scheduledDelay
      = some 0
    ∧ (wsOnClose (wsOnOpen (connectWebSocket wsInit)).1).2.scheduledDelay
      ≠ some 3000 := by
  decide

/-- C4 amended: when the connection closes with attempt counter a < 5, the
status callback is invoked with disconnected and the reconnect is scheduled
with delay a × 3 s; the counter increments only when the timer fires, so
the nth reconnect attempt (n = 1..5) waits (n − 1) × 3 s — the first is
immediate, the second waits 3 s, ..., the fifth 12 s. -/
theorem reconnect_delay_linear (s : WsState)
    (h : s.reconnectAttempts < maxReconnectAttempts) :
    (wsOnClose s).2.statusCb = some false
    ∧ (wsOnClose s).2.scheduledDelay = some (3000 * s.reconnectAttempts)
    ∧ (∀ s' : WsState,
        (wsTimerFire s').reconnectAttempts = s'.reconnectAttempts + 1)
    ∧ (wsRunEffects wsInit
        [WsEvent.evConnect, WsEvent.evClose, WsEvent.evTimer, WsEvent.evClose,
         WsEvent.evTimer, WsEvent.evClose, WsEvent.evTimer, WsEvent.evClose,
         WsEvent.evTimer, WsEvent.evClose, WsEvent.evTimer,
         WsEvent.evClose]).map WsEffect.scheduledDelay
      = [none, some 0, none, some 3000, none, some 6000, none, some 9000,
         none, some 12000, none, none] := by
  refine ⟨rfl, ?_, ?_, ?_⟩
  · simp [wsOnClose, h]
  · intro s'
    simp [wsTimerFire, connectWebSocket]
    cases hws : s'.ws with
    | none => rfl
    | some rs => cases rs <;> rfl
  · decide

/-- Witness for C4 (amended): from the initial state (counter 0 < 5), a
close invokes the status callback with `false` and schedules the reconnect
immediately (delay 0 ms). -/
theorem reconnect_delay_linear_witness :
    (wsOnClose wsInit).2.statusCb = some false
    ∧ (wsOnClose wsInit).2.scheduledDelay = some (3000 * wsInit.reconnectAttempts) := by
  have h := reconnect_delay_linear wsInit (by decide)
  exact ⟨h.1, h.2.1⟩

/-! ### Claim C5: the 5-attempt reconnect cap -/

/-- Events other than a successful open (`evOpen`) and a pending reconnect
timer (`evTimer`) never change the reconnect counter. -/
theorem wsStep_preserves_attempts (s : WsState) (e : WsEvent)
    (h1 : e ≠ WsEvent.evOpen) (h2 : e ≠ WsEvent.evTimer) :
    (wsStep s e).1.reconnectAttempts = s.reconnectAttempts := by
  obtain ⟨ws, conn, att⟩ := s
  cases e with
  | evConnect =>
    cases ws with
    | none => rfl
    | some rs => cases rs <;> rfl
  | evOpen => exact absurd rfl h1
  | evClose => rfl
  | evTimer => exact absurd rfl h2
  | evDisconnect => cases ws <;> rfl

/-- Once the counter has reached the cap, no event except an open or a
timer can produce a scheduled reconnect. -/
theorem wsStep_capped_schedules_nothing (s : WsState) (e : WsEvent)
    (hcap : maxReconnectAttempts ≤ s.reconnectAttempts)
    (h1 : e ≠ WsEvent.evOpen) (h2 : e ≠ WsEvent.evTimer) :
    (wsStep s e).2.scheduledDelay = none := by
  obtain ⟨ws, conn, att⟩ := s
  have hcap2 : maxReconnectAttempts ≤ att := hcap
  cases e with
  | evConnect => rfl
  | evOpen => exact absurd rfl h1
  | evClose =>
    simp only [wsStep, wsOnClose]
    exact if_neg (by omega)
  | evTimer => exact absurd rfl h2
  | evDisconnect => rfl

/-- C5: reconnect attempts never exceed 5.  Driving the machine from the
initial state through 5 failed reconnect cycles brings the counter to
exactly `maxReconnectAttempts = 5` with the final close scheduling
nothing; and from any state whose counter has reached the cap, every
subsequent chain of close/connect/disconnect events (no successful open;
no timer can fire since nothing is scheduled) keeps the counter at the cap,
schedules no reconnect at any step, and a further close still schedules
nothing. -/
theorem reconnect_stops_after_five_failures (s : WsState) (es : List WsEvent)
    (hcap : maxReconnectAttempts ≤ s.reconnectAttempts)
    (hes : ∀ e ∈ es, e ≠ WsEvent.evOpen ∧ e ≠ WsEvent.evTimer) :
    ((wsRun wsInit
        [WsEvent.evConnect, WsEvent.evClose, WsEvent.evTimer, WsEvent.evClose,
         WsEvent.evTimer, WsEvent.evClose, WsEvent.evTimer, WsEvent.evClose,
         WsEvent.evTimer, WsEvent.evClose, WsEvent.evTimer,
         WsEvent.evClose]).reconnectAttempts = maxReconnectAttempts
      ∧ (wsOnClose (wsRun wsInit
          [WsEvent.evConnect, WsEvent.evClose, WsEvent.evTimer, WsEvent.evClose,
           WsEvent.evTimer, WsEvent.evClose, WsEvent.evTimer, WsEvent.evClose,
           WsEvent.evTimer, WsEvent.evClose, WsEvent.evTimer,
           WsEvent.evClose])).2.scheduledDelay = none)
    ∧ maxReconnectAttempts ≤ (wsRun s es).reconnectAttempts
    ∧ (∀ eff ∈ wsRunEffects s es, eff.scheduledDelay = none)
    ∧ (wsOnClose (wsRun s es)).2.scheduledDelay = none := by
  refine ⟨by decide, ?_⟩
  induction es generalizing s with
  | nil =>
    refine ⟨hcap, by simp [wsRunEffects], ?_⟩
    simp only [wsRun, List.foldl_nil, wsOnClose]
    exact if_neg (by omega)
  | cons e es ih =>
    have he := hes e (List.mem_cons_self e es)
    have hes' : ∀ x ∈ es, x ≠ WsEvent.evOpen ∧ x ≠ WsEvent.evTimer :=
      fun x hx => hes x (List.mem_cons_of_mem e hx)
    have hstep : (wsStep s e).1.reconnectAttempts = s.reconnectAttempts :=
      wsStep_preserves_attempts s e he.1 he.2
    have hcap' : maxReconnectAttempts ≤ (wsStep s e).1.reconnectAttempts := by
      omega
    obtain ⟨hrun, heff, hclose⟩ := ih (wsStep s e).1 hcap' hes'
    refine ⟨?_, ?_, ?_⟩
    · simpa [wsRun] using hrun
    · intro eff heffmem
      have : eff = (wsStep s e).2 ∨ eff ∈ wsRunEffects (wsStep s e).1 es := by
        simpa [wsRunEffects] using heffmem
      rcases this with h | h
      · subst h
        exact wsStep_capped_schedules_nothing s e hcap he.1 he.2
      · exact heff eff h
    · simpa [wsRun] using hclose

/-- Witness for C5: from a state whose counter sits at the cap, a concrete
chain of close/disconnect/connect/close events keeps the counter at the cap
and a further close schedules no reconnect. -/
theorem reconnect_stops_after_five_failures_witness :
    maxReconnectAttempts ≤
      (wsRun ⟨some ReadyState.closed, false, 5⟩
        [WsEvent.evClose, WsEvent.evDisconnect, WsEvent.evConnect,
         WsEvent.evClose]).reconnectAttempts
    ∧ (wsOnClose (wsRun ⟨some ReadyState.closed, false, 5⟩
        [WsEvent.evClose, WsEvent.evDisconnect, WsEvent.evConnect,
         WsEvent.evClose])).2.scheduledDelay = none := by
  have h := reconnect_stops_after_five_failures
    ⟨some ReadyState.closed, false, 5⟩
    [WsEvent.evClose, WsEvent.evDisconnect, WsEvent.evConnect,
     WsEvent.evClose] (by decide) (by decide)
  exact ⟨h.2.1, h.2.2.2⟩

/-! ### Claim C6: fallback payload on a 500 response -/

/-- C6: when the trending endpoint answers with status 500 on a fresh
(empty) cache, `getTrendingTracks(limit)` returns — without raising — a
fallback payload whose `tracks` has length exactly `limit` and in which
every track has `source = "fallback"`; no entry is cached. -/
theorem trending_500_fallback (now : Nat) (rand : Nat → Nat) (limit : Nat)
    (json : Option TrendingBody) :
    (getTrendingTracks now rand [] (HttpTrending.resp 500 json) limit).1.tracks.length
      = limit
    ∧ (∀ t ∈ (getTrendingTracks now rand []
        (HttpTrending.resp 500 json) limit).1.tracks, t.source = "fallback")
    ∧ (getTrendingTracks now rand [] (HttpTrending.resp 500 json) limit).2.1
      = []
    ∧ (getTrendingTracks now rand [] (HttpTrending.resp 500 json) limit).1
      = getFallbackTrendingData now rand limit := by
  have hv : isCacheValid ([] : CacheMap TrendingResult) now
      ("trending_" ++ toString limit) = false := by
    simp [isCacheValid, mapGet]
  have hok : respOk 500 = false := by decide
  have hmain : getTrendingTracks now rand [] (HttpTrending.resp 500 json) limit
      = (getFallbackTrendingData now rand limit, [], true) := by
    simp [getTrendingTracks, hv, hok]
  refine ⟨?_, ?_, ?_, ?_⟩
  · simp [hmain, getFallbackTrendingData]
  · intro t ht
    rw [hmain] at ht
    simp only [getFallbackTrendingData, List.mem_map, List.mem_range] at ht
    obtain ⟨i, _, hi⟩ := ht
    rw [← hi]
  · simp [hmain]
  · simp [hmain]

/-! ### Claim C7: disconnectWebSocket -/

/-- Counterexample to C7: `disconnectWebSocket` does NOT reset the
reconnect counter.  From a connected state with 3 recorded reconnect
attempts, disconnecting releases the handle and clears the connected flag
but leaves the counter at 3 ≠ 0. -/
theorem disconnect_counter_not_reset_counterexample :
    disconnectWebSocket ⟨some ReadyState.openSt, true, 3⟩
      = ⟨none, false, 3⟩
    ∧ (disconnectWebSocket
        ⟨some ReadyState.openSt, true, 3⟩).reconnectAttempts ≠ 0 := by
  decide

/-- C7 amended: `disconnectWebSocket` closes the connection when one
exists: the socket handle is released and the connected flag cleared, but
the reconnect attempt counter is NOT reset — it keeps its value (only a
successful open resets it).  Calling it with no socket handle is safe and
leaves the state unchanged. -/
theorem disconnect_releases_socket (s : WsState) :
    (s.ws.isSome = true →
      disconnectWebSocket s = { s with ws := none, wsConnected := false })
    ∧ (s.ws = none → disconnectWebSocket s = s)
    ∧ (disconnectWebSocket s).ws = none
    ∧ (disconnectWebSocket s).reconnectAttempts = s.reconnectAttempts := by
  obtain ⟨ws, conn, att⟩ := s
  cases ws with
  | none => exact ⟨fun h => by simp at h, fun _ => rfl, rfl, rfl⟩
  | some rs => exact ⟨fun _ => rfl, fun h => by simp at h, rfl, rfl⟩

/-- Witness for C7 (amended): a connected state with counter 3 is released
with the counter kept, and the no-socket state is left unchanged. -/
theorem disconnect_releases_socket_witness :
    disconnectWebSocket ⟨some ReadyState.openSt, true, 3⟩
      = { (⟨some ReadyState.openSt, true, 3⟩ : WsState) with
            ws := none, wsConnected := false }
    ∧ disconnectWebSocket ⟨none, false, 2⟩ = ⟨none, false, 2⟩ := by
  exact ⟨(disconnect_releases_socket ⟨some ReadyState.openSt, true, 3⟩).1 rfl,
    (disconnect_releases_socket ⟨none, false, 2⟩).2.1 rfl⟩

/-! ### Claim C8: live trending_update messages -/

/-- C8: a live message `{type: 'trending_update', data: [t1, t2]}`
replaces the Dashboard's in-memory track list with exactly `[t1, t2]`
(shown both for the raw handler and for delivery through the `onmessage`
parse-and-dispatch wrapper), and every message whose type is not
`trending_update` leaves the state unchanged. -/
theorem live_update_replaces_tracks (α : Type) (nowIso : String)
    (st : Option (DashTrendingData α)) (t1 t2 : α) (msg : WsMessage α)
    (hmsg : msg.type ≠ "trending_update") :
    (∃ p, dashboardOnMessage nowIso st ⟨"trending_update", some [t1, t2]⟩
        = some p ∧ p.tracks = [t1, t2])
    ∧ (∃ p, wsDeliver nowIso (some ⟨"trending_update", some [t1, t2]⟩) st
        = some p ∧ p.tracks = [t1, t2])
    ∧ dashboardOnMessage nowIso st msg = st
    ∧ wsDeliver nowIso (some msg) st = st
    ∧ wsDeliver nowIso (none : Option (WsMessage α)) st = st := by
  have hup : ∃ p, dashboardOnMessage nowIso st ⟨"trending_update", some [t1, t2]⟩
      = some p ∧ p.tracks = [t1, t2] := by
    cases st with
    | none => exact ⟨_, rfl, rfl⟩
    | some prev => exact ⟨_, rfl, rfl⟩
  have hother : dashboardOnMessage nowIso st msg = st := by
    simp [dashboardOnMessage, hmsg]
  exact ⟨hup, hup, hother, hother, rfl⟩

/-- Witness for C8: over `α = Nat`, the update message replaces an existing
one-element track list with `[1, 2]`, and a `heartbeat` message leaves the
state unchanged. -/
theorem live_update_replaces_tracks_witness :
    (∃ p, dashboardOnMessage "now" (some { tracks := [7] })
        (⟨"trending_update", some [1, 2]⟩ : WsMessage Nat)
        = some p ∧ p.tracks = [1, 2])
    ∧ dashboardOnMessage "now" (some { tracks := [7] })
        (⟨"heartbeat", some [1, 2]⟩ : WsMessage Nat)
      = some { tracks := [7] } := by
  have h := live_update_replaces_tracks Nat "now" (some { tracks := [7] }) 1 2
    ⟨"heartbeat", some [1, 2]⟩ (by decide)
  exact ⟨h.1, h.2.2.1⟩

/-! ### Claim C9: search short-circuit and no-throw -/

/-- C9: for every query whose trimmed length is under 2 characters,
`searchTracks` returns `{tracks: [], total: 0}` (no `query`/`error`
fields) without performing any network request; and `searchTracks` never
raises — a failed fetch yields the empty result carrying the error
message. -/
theorem search_short_circuit_never_throws (now : Nat) (rand : Nat → Nat)
    (query : String) (limit : Nat) :
    (∀ net, (jsTrim query).length < 2 →
      searchTracks now rand query limit net
        = ({ tracks := [], total := 0 }, false))
    ∧ (∀ msg, 2 ≤ (jsTrim query).length →
      searchTracks now rand query limit (HttpSearch.netError msg)
        = ({ tracks := [], total := 0, error := some msg }, true)) := by
  constructor
  · intro net hshort
    have : (query = "" || (jsTrim query).length < 2) = true := by
      simp [hshort]
    simp [searchTracks, this]
  · intro msg hlong
    have hne : ¬ (query = "" ∨ (jsTrim query).length < 2) := by
      rintro (h | h)
      · rw [h] at hlong
        simp [jsTrim] at hlong
      · omega
    have : (query = "" || (jsTrim query).length < 2) = false := by
      simpa using hne
    simp [searchTracks, this]

/-- Witness for C9: `search("a")` short-circuits with no network call, and
a failed fetch for `"arijit"` resolves with the error field set. -/
theorem search_short_circuit_never_throws_witness :
    searchTracks 0 (fun _ => 0) "a" 20 (HttpSearch.netError "boom")
      = ({ tracks := [], total := 0 }, false)
    ∧ searchTracks 0 (fun _ => 0) "arijit" 20 (HttpSearch.netError "boom")
      = ({ tracks := [], total := 0, error := some "boom" }, true) := by
  exact ⟨(search_short_circuit_never_throws 0 (fun _ => 0) "a" 20).1
      (HttpSearch.netError "boom") (by simp [jsTrim]; decide),
    (search_short_circuit_never_throws 0 (fun _ => 0) "arijit" 20).2
      "boom" (by simp [jsTrim]; decide)⟩

/-! ### Claim C10: a successful open resets the reconnect counter -/

/-- C10: whenever the socket opens successfully, `onopen` resets the
reconnect counter to 0, so the 5-attempt cap bounds only consecutive
failures: after any successful (re)connection a later close again
schedules a reconnect (delay 0), and a full sequence of 5 further failed
reconnect cycles is available before the machine gives up. -/
theorem open_resets_reconnect_counter (s : WsState) :
    (wsOnOpen s).1.reconnectAttempts = 0
    ∧ (wsOnOpen s).1.wsConnected = true
    ∧ (wsOnOpen s).2.statusCb = some true
    ∧ (wsOnClose (wsOnOpen s).1).2.scheduledDelay = some 0
    ∧ (wsRunEffects (wsOnOpen s).1
        [WsEvent.evClose, WsEvent.evTimer, WsEvent.evClose, WsEvent.evTimer,
         WsEvent.evClose, WsEvent.evTimer, WsEvent.evClose, WsEvent.evTimer,
         WsEvent.evClose, WsEvent.evTimer, WsEvent.evClose]).map
        WsEffect.scheduledDelay
      = [some 0, none, some 3000, none, some 6000, none, some 9000, none,
         some 12000, none, none] := by
  have hopen : (wsOnOpen s).1 = ⟨some ReadyState.openSt, true, 0⟩ := rfl
  rw [hopen]
  exact ⟨rfl, rfl, rfl, by decide, by decide⟩

end MusicAPI
